import Mathlib

/-!
Verification of the query-translation orchestrator of the aqqu repository
(query_translator/translator.py).

The file shallowly embeds the orchestrator: the `Query` record, the
`QueryTranslator` state, `set_scorer`, `parse_and_identify_entities`,
`translate_query` and `translate_and_execute_query`.  External collaborators
(the spacy parser, the entity linker's behaviour, the answer-type
identifier, the pattern matcher, the ranker and the SPARQL backend) live
outside the single source file; they are modelled as an environment of
abstract functions, with the properties the specification assigns to them
carried as proof fields where a claim depends on them.

Python floats entering the timing arithmetic are modelled as rationals;
Python object identity for the entity-linker instance is modelled by
structural equality of the linker record (class tag, construction
parameters, index), which separates a freshly constructed instance of a
different class from the retained one.
-/

/-- Result of parsing by the external nlp object (a spacy Doc): carries the
document text and the token sequence. -/
structure Doc where
  text : String
  toks : List String
deriving DecidableEq, Repr

/-- Ranking parameters carried by a scorer (`scorer.get_parameters()`).
`entity_linker_class` is the tag of the entity-linker class the
configuration selects (Python: `params.entity_linker_class`);
`relation_oracle` is the optional oracle handed to queries. `other` stands
for the remaining configuration data. -/
structure Params where
  entity_linker_class : Nat
  relation_oracle : Option Nat
  other : Nat
deriving DecidableEq, Repr

/-- A ranker/scorer (`ranker.Ranker`): a name and its parameters. -/
structure Scorer where
  name : String
  parameters : Params
deriving DecidableEq, Repr

/-- Python `scorer.get_parameters()`. -/
def Scorer.get_parameters (s : Scorer) : Params :=
  s.parameters

/-- An entity-linker instance: its class tag (Python `type(obj)`), the
parameters it was constructed from, and the entity index it was built
with.  Two records are equal exactly when they are indistinguishable as
objects of the model, so a freshly constructed instance of a different
class is provably distinct from the held one. -/
structure EntityLinker where
  linker_class : Nat
  config_params : Params
  index : Nat
deriving DecidableEq, Repr

/-- Python `cls.init_from_config(params, entity_index)`: constructs an
entity-linker instance of class `cls` from the given parameters and
index. -/
def initEntityLinkerFromConfig (cls : Nat) (params : Params) (index : Nat) :
    EntityLinker :=
  { linker_class := cls, config_params := params, index := index }

/-- The candidate extender (`QueryCandidateExtender`): its currently set
ranking parameters (none before any `set_parameters` call) and its other
construction-time state. -/
structure QueryCandidateExtender where
  params : Option Params
  cfg : Nat
deriving DecidableEq, Repr

/-- Python `query_extender.set_parameters(params)`. -/
def QueryCandidateExtender.set_parameters (e : QueryCandidateExtender)
    (p : Params) : QueryCandidateExtender :=
  { e with params := some p }

/-- The SPARQL backend's observable counters: cumulative number of executed
queries and cumulative query time (`backend.num_queries_executed`,
`backend.total_query_time`). -/
structure Backend where
  num_queries_executed : Nat
  total_query_time : Rat
deriving DecidableEq, Repr

/-- The query record built by `Query.__init__(text)` and mutated by the
pipeline stages.  Fields that Python initialises to `None` are options. -/
structure Query where
  text : String
  target_type : Option Nat
  tokens : Option Doc
  content_tokens : Option (List String)
  identified_entities : Option (List Nat)
  relation_oracle : Option Nat
  is_count_query : Bool
deriving DecidableEq, Repr

/-- Python `Query.__init__(text)`: stores the lower-cased text and leaves every
other field unset. -/
def Query.init (text : String) : Query :=
  { text := text.toLower
    target_type := none
    tokens := none
    content_tokens := none
    identified_entities := none
    relation_oracle := none
    is_count_query := false }

/-- The translator state (`QueryTranslator.__init__` fields).  The nlp
object, entity index and answer-type identifier are opaque collaborator
handles, identified by tags. -/
structure QueryTranslator where
  backend : Backend
  query_extender : QueryCandidateExtender
  entity_linker : EntityLinker
  nlp : Nat
  scorer : Scorer
  entity_index : Nat
  answer_type_identifier : Nat
deriving DecidableEq, Repr

/-- Python `QueryTranslator.__init__`: stores all collaborators and immediately
pushes the active scorer's parameters into the candidate extender
(`self.query_extender.set_parameters(scorer.get_parameters())`). -/
def QueryTranslator.init (backend : Backend)
    (query_extender : QueryCandidateExtender)
    (entity_linker : EntityLinker) (nlp : Nat) (scorer : Scorer)
    (entity_index : Nat) (answer_type_identifier : Nat) : QueryTranslator :=
  { backend := backend
    query_extender := query_extender.set_parameters scorer.get_parameters
    entity_linker := entity_linker
    nlp := nlp
    scorer := scorer
    entity_index := entity_index
    answer_type_identifier := answer_type_identifier }

/-- Python `QueryTranslator.set_scorer(scorer)`: stores the scorer, rebuilds the
entity linker from the new parameters when its class differs from the
class of the held instance, and pushes the parameters into the candidate
extender. -/
def QueryTranslator.set_scorer (t : QueryTranslator) (scorer : Scorer) :
    QueryTranslator :=
  let t1 : QueryTranslator := { t with scorer := scorer }
  let params := scorer.get_parameters
  let t2 : QueryTranslator :=
    if t1.entity_linker.linker_class ≠ params.entity_linker_class then
      { t1 with entity_linker :=
          (initEntityLinkerFromConfig params.entity_linker_class params
            t1.entity_index) }
    else t1
  { t2 with query_extender := t2.query_extender.set_parameters params }

/-- Python `QueryTranslator.get_scorer()`. -/
def QueryTranslator.get_scorer (t : QueryTranslator) : Scorer :=
  t.scorer

/-- Modelled from the spec: the pattern matcher
(`query_translator.pattern_matcher.QueryPatternMatcher`, not part of the
analysed source file).  Each of the three template families maps the
fully-annotated query, the candidate extender and the backend to an
ordered list of candidates (candidates are opaque tags); per the spec, a
query with no identified entities yields an empty match list for every
family, recorded as the three proof fields. -/
structure PatternMatcherModel where
  matchERT : Query → QueryCandidateExtender → Backend → List Nat
  matchERMRT : Query → QueryCandidateExtender → Backend → List Nat
  matchERMRERT : Query → QueryCandidateExtender → Backend → List Nat
  ert_empty_of_no_entities : ∀ q e b,
    q.identified_entities = some [] → matchERT q e b = []
  ermrt_empty_of_no_entities : ∀ q e b,
    q.identified_entities = some [] → matchERMRT q e b = []
  ermrert_empty_of_no_entities : ∀ q e b,
    q.identified_entities = some [] → matchERMRERT q e b = []

/-- The behaviour of the external collaborators the orchestrator calls
into.  `nlpFn` is the spacy parse; `identifyEntities` is
`entity_linker.identify_entities_in_tokens`, depending on the linker
instance held by the translator; `identifyTarget` is the answer-type
identifier (modelled from the spec: it mutates only `target_type`);
`getContentTokens` is `pattern_matcher.get_content_tokens`; `rankFn` is
`scorer.rank_query_candidates`; `getResult` maps a candidate to the row
groups of `query_candidate.get_result(include_name=True)` (an empty list
is the falsy no-result value); `translateEffect` and `fetchEffect`
abstract the advance of the backend's cumulative counters during
candidate generation and during the fetch of one candidate's result. -/
structure Env where
  nlpFn : String → Doc
  identifyEntities : EntityLinker → Option Doc → List Nat
  identifyTarget : Query → Option Nat
  getContentTokens : Option Doc → List String
  pm : PatternMatcherModel
  rankFn : Scorer → List Nat → List Nat
  getResult : Nat → List (List Nat)
  translateEffect : Backend → Backend
  fetchEffect : Nat → Backend → Backend

/-- Python `QueryTranslator.parse_and_identify_entities(query_text)`: parses the
raw text, builds the query record from the document's text, stores the
document as the token sequence, and stores the entities the linker
identifies over those tokens. -/
def QueryTranslator.parse_and_identify_entities (env : Env)
    (t : QueryTranslator) (query_text : String) : Query :=
  let query_doc := env.nlpFn query_text
  let query := Query.init query_doc.text
  let query := { query with tokens := some query_doc }
  let entities := env.identifyEntities t.entity_linker query.tokens
  { query with identified_entities := some entities }

/-- Python `QueryTranslator.translate_query(query_text)`: parse and link, identify
the target type, set the relation oracle from the active scorer's
parameters, derive the content tokens, then match the three template
families and return the annotated query with the concatenated matches. -/
def QueryTranslator.translate_query (env : Env) (t : QueryTranslator)
    (query_text : String) : Query × List Nat :=
  let query := t.parse_and_identify_entities env query_text
  let query := { query with target_type := env.identifyTarget query }
  let query :=
    { query with relation_oracle := t.scorer.get_parameters.relation_oracle }
  let query :=
    { query with content_tokens := some (env.getContentTokens query.tokens) }
  let ert_matches := env.pm.matchERT query t.query_extender t.backend
  let ermrt_matches := env.pm.matchERMRT query t.query_extender t.backend
  let ermrert_matches := env.pm.matchERMRERT query t.query_extender t.backend
  (query, ert_matches ++ ermrt_matches ++ ermrert_matches)

/-- One translation result: the candidate together with its non-empty row
groups (`collections.namedtuple TranslationResult`). -/
structure TranslationResult where
  query_candidate : Nat
  query_result_rows : List (List Nat)
deriving DecidableEq, Repr

/-- The fetch loop of `translate_and_execute_query`: for each retained
candidate in rank order, fetch its result; a falsy (empty) result is
skipped, otherwise the pair is appended. -/
def fetchTranslations (env : Env) : List Nat → List TranslationResult
  | [] => []
  | c :: rest =>
    let query_result := env.getResult c
    if query_result = [] then fetchTranslations env rest
    else { query_candidate := c, query_result_rows := query_result } ::
      fetchTranslations env rest

/-- Cumulative backend-counter evolution over the fetch loop. -/
def fetchEffects (env : Env) : List Nat → Backend → Backend
  | [], b => b
  | c :: rest, b => fetchEffects env rest (env.fetchEffect c b)

/-- Denominator of the translation-phase average: the number of backend
queries the phase executed plus the additive epsilon `0.001`. -/
def avgDenomQueries (num_sparql_queries : Int) : Rat :=
  (num_sparql_queries : Rat) + 1 / 1000

/-- Denominator of the fetch-phase average: the number of returned
translations plus the additive epsilon `0.001`. -/
def avgDenomTranslations (num_translations : Nat) : Rat :=
  (num_translations : Rat) + 1 / 1000

/-- The statistics `translate_and_execute_query` computes for logging. -/
structure ExecStats where
  num_sparql_queries : Int
  translation_time : Rat
  avg_query_time : Rat
  result_fetch_time : Rat
  avg_result_fetch_time : Rat
deriving DecidableEq, Repr

/-- Python `QueryTranslator.translate_and_execute_query(query, n_top)`: snapshot
the backend counters, translate, compute the translation-phase deltas and
average, rank the candidates with the active scorer, truncate the ranked
list to `n_top`, fetch each retained candidate's result skipping falsy
ones, and compute the fetch-phase delta and average.  Returns the parsed
query, the translation list and the computed statistics. -/
def QueryTranslator.translate_and_execute_query (env : Env)
    (t : QueryTranslator) (query : String) (n_top : Nat) :
    Query × List TranslationResult × ExecStats :=
  let num_sparql_queries0 := t.backend.num_queries_executed
  let sparql_query_time0 := t.backend.total_query_time
  let parsed := t.translate_query env query
  let parsed_query := parsed.1
  let query_candidates := parsed.2
  let backend1 := env.translateEffect t.backend
  let translation_time := (backend1.total_query_time - sparql_query_time0) * 1000
  let num_sparql_queries : Int :=
    (backend1.num_queries_executed : Int) - (num_sparql_queries0 : Int)
  let avg_query_time := translation_time / avgDenomQueries num_sparql_queries
  let ranked_candidates := env.rankFn t.scorer query_candidates
  let sparql_query_time1 := backend1.total_query_time
  let translations := fetchTranslations env (ranked_candidates.take n_top)
  let backend2 := fetchEffects env (ranked_candidates.take n_top) backend1
  let result_fetch_time := (backend2.total_query_time - sparql_query_time1) * 1000
  let avg_result_fetch_time :=
    result_fetch_time / avgDenomTranslations translations.length
  (parsed_query, translations,
    { num_sparql_queries := num_sparql_queries
      translation_time := translation_time
      avg_query_time := avg_query_time
      result_fetch_time := result_fetch_time
      avg_result_fetch_time := avg_result_fetch_time })

/-- The mutable fields of a `Query` record that the translation pipeline
assigns. -/
inductive QField where
  | tokens
  | identifiedEntities
  | targetType
  | contentTokens
  | relationOracle
deriving DecidableEq, Repr

/-- The assignment sequence of `translate_query` (including the two
assignments inside `parse_and_identify_entities`), in source order: each
entry is the assigned field paired with the state transformation the
stage performs. -/
def stageList (env : Env) (t : QueryTranslator) (query_text : String) :
    List (QField × (Query → Query)) :=
  [(QField.tokens,
      fun q => { q with tokens := some (env.nlpFn query_text) }),
   (QField.identifiedEntities,
      fun q =>
        let es := env.identifyEntities t.entity_linker q.tokens
        { q with identified_entities := some es }),
   (QField.targetType,
      fun q => { q with target_type := env.identifyTarget q }),
   (QField.relationOracle,
      fun q =>
        let ro := t.scorer.get_parameters.relation_oracle
        { q with relation_oracle := ro }),
   (QField.contentTokens,
      fun q =>
        let ct := env.getContentTokens q.tokens
        { q with content_tokens := some ct })]

/-- Run a list of stages over a query state. -/
def runStages : Query → List (QField × (Query → Query)) → Query
  | q, [] => q
  | q, st :: rest => runStages (st.2 q) rest

/-- The order in which `translate_query` assigns the query's fields. -/
def mutationOrder (env : Env) (t : QueryTranslator) (query_text : String) :
    List QField :=
  (stageList env t query_text).map Prod.fst

/-- A sequence of `set_scorer` calls applied to a translator. -/
def applyScorers (t : QueryTranslator) : List Scorer → QueryTranslator
  | [] => t
  | s :: rest => applyScorers (t.set_scorer s) rest

/-- Sample configuration selecting entity-linker class 0. -/
def sampleParams0 : Params :=
  { entity_linker_class := 0, relation_oracle := none, other := 0 }

/-- Sample configuration selecting entity-linker class 1. -/
def sampleParams1 : Params :=
  { entity_linker_class := 1, relation_oracle := some 5, other := 7 }

/-- Sample scorer carrying `sampleParams0`. -/
def sampleScorer0 : Scorer := { name := "s0", parameters := sampleParams0 }

/-- Sample scorer carrying `sampleParams1`. -/
def sampleScorer1 : Scorer := { name := "s1", parameters := sampleParams1 }

/-- Sample entity linker of class 0. -/
def sampleLinker : EntityLinker := initEntityLinkerFromConfig 0 sampleParams0 3

/-- Sample candidate extender with no parameters set yet. -/
def sampleExtender : QueryCandidateExtender := { params := none, cfg := 2 }

/-- Sample backend with zeroed counters. -/
def sampleBackend : Backend :=
  { num_queries_executed := 0, total_query_time := 0 }

/-- Sample translator, as built by `QueryTranslator.__init__`. -/
def sampleTranslator : QueryTranslator :=
  QueryTranslator.init sampleBackend sampleExtender sampleLinker 4
    sampleScorer0 3 6

/-- Sample pattern matcher: fixed candidate lists on queries with at least
one identified entity, empty lists otherwise. -/
def samplePM : PatternMatcherModel where
  matchERT := fun q _ _ =>
    if q.identified_entities = some [] then [] else [10]
  matchERMRT := fun q _ _ =>
    if q.identified_entities = some [] then [] else [20, 21]
  matchERMRERT := fun q _ _ =>
    if q.identified_entities = some [] then [] else [30]
  ert_empty_of_no_entities := by
    intro q e b h
    simp [h]
  ermrt_empty_of_no_entities := by
    intro q e b h
    simp [h]
  ermrert_empty_of_no_entities := by
    intro q e b h
    simp [h]

/-- Sample collaborator environment: the linker finds one entity on any
document with non-empty text and none otherwise; ranking reverses;
even-numbered candidates yield one row group, odd-numbered ones yield the
falsy empty result. -/
def sampleEnv : Env where
  nlpFn := fun s => { text := s, toks := [s] }
  identifyEntities := fun _ d =>
    match d with
    | none => []
    | some doc => if doc.text = "" then [] else [1]
  identifyTarget := fun _ => some 2
  getContentTokens := fun d =>
    match d with
    | none => []
    | some doc => doc.toks
  pm := samplePM
  rankFn := fun _ l => l.reverse
  getResult := fun c => if c % 2 = 0 then [[c]] else []
  translateEffect := fun b =>
    { num_queries_executed := b.num_queries_executed + 3
      total_query_time := b.total_query_time + 5 }
  fetchEffect := fun _ b =>
    { num_queries_executed := b.num_queries_executed + 1
      total_query_time := b.total_query_time + 1 }

/-- The fetch loop returns at most as many translations as candidates it
is given. -/
theorem fetchTranslations_length_le (env : Env) (l : List Nat) :
    (fetchTranslations env l).length ≤ l.length := by
  induction l with
  | nil => simp [fetchTranslations]
  | cons c rest ih =>
    simp only [fetchTranslations]
    split
    · exact Nat.le_trans ih (Nat.le_succ _)
    · simpa using Nat.succ_le_succ ih

/-- Every translation the fetch loop returns has a non-empty (truthy) row
set. -/
theorem fetchTranslations_rows_ne_nil (env : Env) (l : List Nat)
    (r : TranslationResult) (hr : r ∈ fetchTranslations env l) :
    r.query_result_rows ≠ [] := by
  induction l with
  | nil => simp [fetchTranslations] at hr
  | cons c rest ih =>
    simp only [fetchTranslations] at hr
    split at hr
    · exact ih hr
    · rcases List.mem_cons.mp hr with h | h
      · subst h
        simpa using (by assumption : ¬env.getResult c = [])
      · exact ih h

/-- The fetch loop is the filterMap keeping exactly the candidates with a
non-empty fetched result, paired with that result. -/
theorem fetchTranslations_eq_filterMap (env : Env) (l : List Nat) :
    fetchTranslations env l =
      l.filterMap (fun c =>
        if env.getResult c = [] then none
        else some { query_candidate := c
                    query_result_rows := env.getResult c }) := by
  induction l with
  | nil => rfl
  | cons c rest ih =>
    by_cases h : env.getResult c = [] <;>
      simp [fetchTranslations, List.filterMap_cons, h, ih]

/-- The candidates of the fetch loop's output form an order-preserving
subsequence of the candidate list it scanned. -/
theorem fetchTranslations_map_sublist (env : Env) (l : List Nat) :
    ((fetchTranslations env l).map TranslationResult.query_candidate).Sublist
      l := by
  induction l with
  | nil => simp [fetchTranslations]
  | cons c rest ih =>
    simp only [fetchTranslations]
    split
    · exact List.Sublist.cons c ih
    · simpa using List.Sublist.cons₂ c ih

/-- C1: for every input text and non-negative limit `k`,
`translate_and_execute_query` returns at most `k` translation results,
every returned entry's `query_result_rows` is non-empty (truthy), and
with limit `0` the returned list is empty regardless of the candidate
count. -/
theorem translate_and_execute_query_bounded (env : Env) (t : QueryTranslator)
    (s : String) (k : Nat) :
    (QueryTranslator.translate_and_execute_query env t s k).2.1.length ≤ k ∧
    (∀ r ∈ (QueryTranslator.translate_and_execute_query env t s k).2.1,
      r.query_result_rows ≠ []) ∧
    (QueryTranslator.translate_and_execute_query env t s 0).2.1 = [] := by
  have hmain : ∀ m : Nat,
      (QueryTranslator.translate_and_execute_query env t s m).2.1 =
        fetchTranslations env
          ((env.rankFn t.scorer
            (QueryTranslator.translate_query env t s).2).take m) :=
    fun m => rfl
  refine ⟨?_, ?_, ?_⟩
  · rw [hmain]
    exact Nat.le_trans (fetchTranslations_length_le _ _)
      (List.length_take_le _ _)
  · intro r hr
    rw [hmain] at hr
    exact fetchTranslations_rows_ne_nil _ _ _ hr
  · rw [hmain]
    simp [fetchTranslations]

/-- Witness for C1 at a concrete environment, translator, text and limit:
one of the two retained ranked candidates has a falsy result, so exactly
one translation comes back, and its rows are non-empty. -/
theorem translate_and_execute_query_bounded_witness :
    (QueryTranslator.translate_and_execute_query sampleEnv sampleTranslator
        "who" 2).2.1.length ≤ 2 ∧
    ({ query_candidate := 30, query_result_rows := [[30]] } :
        TranslationResult).query_result_rows ≠ [] ∧
    (QueryTranslator.translate_and_execute_query sampleEnv sampleTranslator
        "who" 0).2.1 = [] := by
  refine ⟨(translate_and_execute_query_bounded sampleEnv sampleTranslator
      "who" 2).1, ?_,
    (translate_and_execute_query_bounded sampleEnv sampleTranslator
      "who" 0).2.2⟩
  refine (translate_and_execute_query_bounded sampleEnv sampleTranslator
      "who" 2).2.1 _ ?_
  decide

/-- C2: the returned translations are exactly the filterMap, over the
ranked candidate sequence truncated to the limit, keeping in rank order
the candidates whose fetched result is non-empty together with that
result; in particular the returned candidates form an order-preserving
subsequence of the truncated ranked sequence. -/
theorem translate_and_execute_query_rank_subsequence (env : Env)
    (t : QueryTranslator) (s : String) (k : Nat) :
    (QueryTranslator.translate_and_execute_query env t s k).2.1 =
      ((env.rankFn t.scorer
          (QueryTranslator.translate_query env t s).2).take k).filterMap
        (fun c =>
          if env.getResult c = [] then none
          else some { query_candidate := c
                      query_result_rows := env.getResult c }) ∧
    ((QueryTranslator.translate_and_execute_query env t s k).2.1.map
        TranslationResult.query_candidate).Sublist
      ((env.rankFn t.scorer
          (QueryTranslator.translate_query env t s).2).take k) :=
  ⟨fetchTranslations_eq_filterMap env _, fetchTranslations_map_sublist env _⟩

/-- C3: the candidate list `translate_query` returns is the concatenation,
in the fixed order ERT ++ ERMRT ++ ERMRERT, of the three template
families' match lists computed on the fully annotated query. -/
theorem translate_query_concat_order (env : Env) (t : QueryTranslator)
    (s : String) :
    (QueryTranslator.translate_query env t s).2 =
      env.pm.matchERT (QueryTranslator.translate_query env t s).1
          t.query_extender t.backend ++
        env.pm.matchERMRT (QueryTranslator.translate_query env t s).1
          t.query_extender t.backend ++
        env.pm.matchERMRERT (QueryTranslator.translate_query env t s).1
          t.query_extender t.backend :=
  rfl

/-- C10: the method `parse_and_identify_entities` runs the parser on the raw,
un-lowercased input text; the query's `text` is the lower-cased form of
the parsed document's text, while its tokens and the entities identified
over them derive from the document parsed from the original input. -/
theorem parse_raw_before_normalize (env : Env) (t : QueryTranslator)
    (s : String) :
    (t.parse_and_identify_entities env s).text = (env.nlpFn s).text.toLower ∧
    (t.parse_and_identify_entities env s).tokens = some (env.nlpFn s) ∧
    (t.parse_and_identify_entities env s).identified_entities =
      some (env.identifyEntities t.entity_linker (some (env.nlpFn s))) :=
  ⟨rfl, rfl, rfl⟩

/-- C4: after `set_scorer(s)` the call `get_scorer` returns exactly `s`; when the
new configuration selects a different entity-linker class than that of
the held instance, the held linker becomes a freshly constructed instance
built from the new parameters and the entity index, distinct from the old
one; with the same class, the old instance is retained. -/
theorem set_scorer_swaps_scorer_and_linker (t : QueryTranslator)
    (s : Scorer) :
    (t.set_scorer s).get_scorer = s ∧
    (t.entity_linker.linker_class ≠ s.get_parameters.entity_linker_class →
      (t.set_scorer s).entity_linker =
        initEntityLinkerFromConfig s.get_parameters.entity_linker_class
          s.get_parameters t.entity_index ∧
      (t.set_scorer s).entity_linker ≠ t.entity_linker) ∧
    (t.entity_linker.linker_class = s.get_parameters.entity_linker_class →
      (t.set_scorer s).entity_linker = t.entity_linker) := by
  by_cases h :
      t.entity_linker.linker_class = s.get_parameters.entity_linker_class
  · refine ⟨?_, fun hne => absurd h hne, fun _ => ?_⟩ <;>
      simp [QueryTranslator.set_scorer, QueryTranslator.get_scorer, h]
  · have hset : (t.set_scorer s).entity_linker =
        initEntityLinkerFromConfig s.get_parameters.entity_linker_class
          s.get_parameters t.entity_index := by
      simp [QueryTranslator.set_scorer, h]
    refine ⟨?_, fun _ => ⟨hset, ?_⟩, fun heq => absurd heq h⟩
    · simp [QueryTranslator.set_scorer, QueryTranslator.get_scorer, h]
    · intro heq
      have hcls := congrArg EntityLinker.linker_class heq
      rw [hset] at hcls
      exact h hcls.symm

/-- Witness for C4: swapping to a scorer of a different entity-linker
class replaces the linker instance, swapping to one of the same class
retains it, and `get_scorer` returns the just-set scorer. -/
theorem set_scorer_swaps_scorer_and_linker_witness :
    (sampleTranslator.set_scorer sampleScorer1).get_scorer = sampleScorer1 ∧
    (sampleTranslator.set_scorer sampleScorer1).entity_linker ≠
      sampleTranslator.entity_linker ∧
    (sampleTranslator.set_scorer sampleScorer0).entity_linker =
      sampleTranslator.entity_linker :=
  ⟨(set_scorer_swaps_scorer_and_linker sampleTranslator sampleScorer1).1,
    ((set_scorer_swaps_scorer_and_linker sampleTranslator
        sampleScorer1).2.1 (by decide)).2,
    (set_scorer_swaps_scorer_and_linker sampleTranslator
        sampleScorer0).2.2 (by decide)⟩

/-- C9: the call `set_scorer` only touches the scorer, conditionally the entity
linker, and the extender's parameters: backend, nlp handle, entity index
and answer-type identifier are unchanged, the extender merely receives
the new parameters, and with an unchanged linker class the held linker
instance — including the previous configuration's parameters it was built
from — is left entirely untouched. -/
theorem set_scorer_frame (t : QueryTranslator) (s : Scorer) :
    (t.set_scorer s).backend = t.backend ∧
    (t.set_scorer s).nlp = t.nlp ∧
    (t.set_scorer s).entity_index = t.entity_index ∧
    (t.set_scorer s).answer_type_identifier = t.answer_type_identifier ∧
    (t.set_scorer s).scorer = s ∧
    (t.set_scorer s).query_extender =
      t.query_extender.set_parameters s.get_parameters ∧
    (t.entity_linker.linker_class = s.get_parameters.entity_linker_class →
      (t.set_scorer s).entity_linker = t.entity_linker ∧
      (t.set_scorer s).entity_linker.config_params =
        t.entity_linker.config_params) := by
  by_cases h :
      t.entity_linker.linker_class = s.get_parameters.entity_linker_class <;>
    refine ⟨?_, ?_, ?_, ?_, ?_, ?_, ?_⟩ <;>
    simp [QueryTranslator.set_scorer,
      QueryCandidateExtender.set_parameters, h]

/-- Witness for C9: with a same-class scorer the collaborator handles and
the held entity-linker instance survive unchanged. -/
theorem set_scorer_frame_witness :
    (sampleTranslator.set_scorer sampleScorer0).backend =
      sampleTranslator.backend ∧
    (sampleTranslator.set_scorer sampleScorer0).entity_linker =
      sampleTranslator.entity_linker ∧
    (sampleTranslator.set_scorer sampleScorer0).entity_linker.config_params =
      sampleTranslator.entity_linker.config_params :=
  ⟨(set_scorer_frame sampleTranslator sampleScorer0).1,
    ((set_scorer_frame sampleTranslator
        sampleScorer0).2.2.2.2.2.2 (by decide)).1,
    ((set_scorer_frame sampleTranslator
        sampleScorer0).2.2.2.2.2.2 (by decide)).2⟩

/-- One `set_scorer` call re-establishes the wiring invariant: the
extender's parameters equal the now-active scorer's parameters. -/
theorem set_scorer_extender_params (t : QueryTranslator) (s : Scorer) :
    (t.set_scorer s).query_extender.params =
      some (t.set_scorer s).scorer.get_parameters := by
  by_cases h :
      t.entity_linker.linker_class = s.get_parameters.entity_linker_class <;>
    simp [QueryTranslator.set_scorer,
      QueryCandidateExtender.set_parameters, h]

/-- Any state whose extender parameters match its scorer keeps that match
under any sequence of `set_scorer` calls. -/
theorem applyScorers_extender_params (l : List Scorer) (t : QueryTranslator)
    (h : t.query_extender.params = some t.scorer.get_parameters) :
    (applyScorers t l).query_extender.params =
      some (applyScorers t l).scorer.get_parameters := by
  induction l generalizing t with
  | nil => exact h
  | cons s rest ih => exact ih _ (set_scorer_extender_params t s)

/-- C7: from construction onward and across every `set_scorer` call, the
candidate extender's parameters equal the parameters of the currently
active scorer. -/
theorem extender_params_track_scorer (backend : Backend)
    (query_extender : QueryCandidateExtender) (entity_linker : EntityLinker)
    (nlp : Nat) (scorer : Scorer) (entity_index : Nat)
    (answer_type_identifier : Nat) (calls : List Scorer) :
    (applyScorers (QueryTranslator.init backend query_extender entity_linker
          nlp scorer entity_index answer_type_identifier)
        calls).query_extender.params =
      some ((applyScorers (QueryTranslator.init backend query_extender
          entity_linker nlp scorer entity_index answer_type_identifier)
        calls).scorer.get_parameters) :=
  applyScorers_extender_params calls _ rfl

/-- The translation-phase average's denominator is never zero: it is an
integer plus the epsilon one-thousandth. -/
theorem avgDenomQueries_ne_zero (n : Int) : avgDenomQueries n ≠ 0 := by
  unfold avgDenomQueries
  intro hzero
  have h2 : ((1000 * n : Int) : Rat) = -1 := by
    push_cast
    linarith
  have h3 : (1000 * n : Int) = (-1 : Int) := by exact_mod_cast h2
  omega

/-- The fetch-phase average's denominator is never zero: it is a count
plus the epsilon one-thousandth. -/
theorem avgDenomTranslations_ne_zero (m : Nat) :
    avgDenomTranslations m ≠ 0 := by
  unfold avgDenomTranslations
  have hm : (0 : Rat) ≤ (m : Rat) := Nat.cast_nonneg m
  have heps : (0 : Rat) < 1 / 1000 := by norm_num
  intro hzero
  linarith

/-- C8: both averages computed by `translate_and_execute_query` divide by a
denominator carrying the additive epsilon, and neither denominator is
zero, including with zero executed backend queries or zero returned
translations. -/
theorem avg_time_epsilon_denominators (env : Env) (t : QueryTranslator)
    (s : String) (k : Nat) :
    (QueryTranslator.translate_and_execute_query env t s
        k).2.2.avg_query_time =
      (QueryTranslator.translate_and_execute_query env t s
          k).2.2.translation_time /
        avgDenomQueries (QueryTranslator.translate_and_execute_query env t s
          k).2.2.num_sparql_queries ∧
    avgDenomQueries (QueryTranslator.translate_and_execute_query env t s
        k).2.2.num_sparql_queries ≠ 0 ∧
    (QueryTranslator.translate_and_execute_query env t s
        k).2.2.avg_result_fetch_time =
      (QueryTranslator.translate_and_execute_query env t s
          k).2.2.result_fetch_time /
        avgDenomTranslations (QueryTranslator.translate_and_execute_query env
          t s k).2.1.length ∧
    avgDenomTranslations (QueryTranslator.translate_and_execute_query env t s
        k).2.1.length ≠ 0 :=
  ⟨rfl, avgDenomQueries_ne_zero _, rfl, avgDenomTranslations_ne_zero _⟩

/-- C5 counterexample: the field-assignment order of `translate_query`
is not tokens, entities, target type, content tokens, relation oracle —
the source assigns the relation oracle before the content tokens. -/
theorem mutation_order_counterexample :
    mutationOrder sampleEnv sampleTranslator "who" ≠
      [QField.tokens, QField.identifiedEntities, QField.targetType,
        QField.contentTokens, QField.relationOracle] := by
  decide

/-- C5 amended: the method `translate_query` assigns the query's fields in the strict
sequence tokens, identified entities, target type, relation oracle,
content tokens; the returned query is exactly the state after the last of
these assignments, so it is not mutated once candidate generation begins,
and `translate_and_execute_query` passes it through unchanged. -/
theorem mutation_order_correct (env : Env) (t : QueryTranslator)
    (s : String) (k : Nat) :
    mutationOrder env t s =
      [QField.tokens, QField.identifiedEntities, QField.targetType,
        QField.relationOracle, QField.contentTokens] ∧
    (QueryTranslator.translate_query env t s).1 =
      runStages (Query.init (env.nlpFn s).text) (stageList env t s) ∧
    (QueryTranslator.translate_and_execute_query env t s k).1 =
      (QueryTranslator.translate_query env t s).1 :=
  ⟨rfl, rfl, rfl⟩

/-- C6: when the entity linker identifies no entities in the parsed
input, every template family matches emptily and `translate_query`
returns the empty candidate list (and, being total, raises no error). -/
theorem translate_query_no_entities_empty (env : Env) (t : QueryTranslator)
    (s : String)
    (h : env.identifyEntities t.entity_linker (some (env.nlpFn s)) = []) :
    (QueryTranslator.translate_query env t s).2 = [] := by
  have hq : (QueryTranslator.translate_query env t
      s).1.identified_entities = some [] := by
    show some (env.identifyEntities t.entity_linker (some (env.nlpFn s))) =
      some []
    rw [h]
  calc (QueryTranslator.translate_query env t s).2
      = env.pm.matchERT (QueryTranslator.translate_query env t s).1
            t.query_extender t.backend ++
          env.pm.matchERMRT (QueryTranslator.translate_query env t s).1
            t.query_extender t.backend ++
          env.pm.matchERMRERT (QueryTranslator.translate_query env t s).1
            t.query_extender t.backend := rfl
    _ = [] := by
        rw [env.pm.ert_empty_of_no_entities _ _ _ hq,
          env.pm.ermrt_empty_of_no_entities _ _ _ hq,
          env.pm.ermrert_empty_of_no_entities _ _ _ hq]
        rfl

/-- Witness for C6: on the empty input text the sample linker identifies
no entities, and the candidate list comes back empty. -/
theorem translate_query_no_entities_witness :
    sampleEnv.identifyEntities sampleTranslator.entity_linker
        (some (sampleEnv.nlpFn "")) = [] ∧
    (QueryTranslator.translate_query sampleEnv sampleTranslator "").2 = [] :=
  ⟨rfl, translate_query_no_entities_empty sampleEnv sampleTranslator "" rfl⟩
